import Mathlib

/-!
Verification of the midnight-mcp protocol gateway against its design document.

Shallow embedding of the relevant source functions:
  * the JavaScript value model, truthiness, and the recursive bigint
    serializer `serializeBigInts` of the DAO service;
  * the tool registry `ALL_TOOLS` (projected to name + required fields)
    and the dispatcher `handleToolCall` of src/tools.ts;
  * the Express handlers of the HTTP server: the streamable `/mcp`
    endpoint, the SSE `/messages` endpoint, their error envelopes,
    and the SIGINT and SIGTERM shutdown handler;
  * `MCPServer.confirmTransactionHasBeenReceived` of the MCP server.

Effectful calls (HTTP requests to the wallet backend, SDK transport
methods, the wallet query) are represented by explicit request values or
by `Except`-typed parameters describing the collaborator's outcome, so
every definition is executable.
-/

namespace MidnightMCP

/-- JavaScript runtime values as they occur in tool arguments, tool
results and DAO operation results.  Numbers are modelled as integers
(no claim in scope involves fractional numerics); `vbigint` is a
JavaScript BigInt; `vundefined` is the value of an absent property. -/
inductive JsValue where
  | vnull
  | vundefined
  | vbool (b : Bool)
  | vnum (n : Int)
  | vstr (s : String)
  | vbigint (n : Int)
  | varr (elems : List JsValue)
  | vobj (fields : List (String × JsValue))

/-- JavaScript truthiness for the value model (NaN is not representable
here; every array and object is truthy, as in JavaScript). -/
def truthy : JsValue → Bool
  | .vnull => false
  | .vundefined => false
  | .vbool b => b
  | .vnum n => n ≠ 0
  | .vstr s => ¬s.isEmpty
  | .vbigint n => n ≠ 0
  | .varr _ => true
  | .vobj _ => true

/-- Template-literal stringification of a scalar value, as used by the
dispatcher when interpolating a path segment.  Every interpolated value
in the source is truthiness-checked first and is a string in every
claim in scope; array/object stringification is not exercised and is
rendered as in JavaScript only for the object case. -/
def jsTemplate : JsValue → String
  | .vnull => "null"
  | .vundefined => "undefined"
  | .vbool b => if b then "true" else "false"
  | .vnum n => toString n
  | .vstr s => s
  | .vbigint n => toString n
  | .varr _ => ""
  | .vobj _ => "[object Object]"

mutual
/-- Embedding of serializeBigInts (dao-service): null and undefined are
returned as-is, a bigint becomes its decimal string, arrays and objects
are mapped recursively, and every other value is returned unchanged. -/
def serializeBigInts : JsValue → JsValue
  | .vnull => .vnull
  | .vundefined => .vundefined
  | .vbigint n => .vstr (toString n)
  | .varr elems => .varr (serializeBigIntsList elems)
  | .vobj fields => .vobj (serializeBigIntsFields fields)
  | .vbool b => .vbool b
  | .vnum n => .vnum n
  | .vstr s => .vstr s

/-- Recursion of `serializeBigInts` over array elements (obj.map in the
source). -/
def serializeBigIntsList : List JsValue → List JsValue
  | [] => []
  | v :: rest => serializeBigInts v :: serializeBigIntsList rest

/-- Recursion of `serializeBigInts` over object entries
(Object.entries loop in the source; keys are kept). -/
def serializeBigIntsFields : List (String × JsValue) → List (String × JsValue)
  | [] => []
  | (k, v) :: rest => (k, serializeBigInts v) :: serializeBigIntsFields rest
end

/-- Success envelope built by every DAO service operation
(openDaoElection, closeDaoElection, castDaoVote, fundDaoTreasury,
payoutDaoProposal, getDaoElectionStatus, getDaoState): the raw contract
result is passed through `serializeBigInts` before being placed in the
`data` field of the response. -/
def daoSuccessResponse (message : String) (result : JsValue) :
    Option String × Option JsValue :=
  (some message, some (serializeBigInts result))

/-- Specification relation, written from the spec's words for the
serialization claim: the output has the same shape as the input, every
bigint at any depth is replaced by its exact decimal string
representation, and every non-bigint leaf is unchanged (in particular
nothing is converted to a floating-point number). -/
inductive BigIntSerialized : JsValue → JsValue → Prop where
  | nullv : BigIntSerialized .vnull .vnull
  | undef : BigIntSerialized .vundefined .vundefined
  | boolv (b : Bool) : BigIntSerialized (.vbool b) (.vbool b)
  | numv (n : Int) : BigIntSerialized (.vnum n) (.vnum n)
  | strv (s : String) : BigIntSerialized (.vstr s) (.vstr s)
  | bigint (n : Int) : BigIntSerialized (.vbigint n) (.vstr (toString n))
  | arr {xs ys : List JsValue} :
      List.Forall₂ BigIntSerialized xs ys →
      BigIntSerialized (.varr xs) (.varr ys)
  | obj {fs gs : List (String × JsValue)} :
      fs.map Prod.fst = gs.map Prod.fst →
      List.Forall₂ BigIntSerialized (fs.map Prod.snd) (gs.map Prod.snd) →
      BigIntSerialized (.vobj fs) (.vobj gs)

/-! Tool registry and dispatcher (src/tools.ts). -/

/-- Tool argument object (`toolArgs` in the source): a JavaScript
object, field access on an absent key yields `undefined`. -/
abbrev ToolArgs := List (String × JsValue)

/-- Property access `toolArgs.<k>` (destructuring in the source). -/
def getArg (args : ToolArgs) (k : String) : JsValue :=
  (args.lookup k).getD .vundefined

/-- One entry of the ALL_TOOLS registry, projected to the data the
claims need: the tool name and the inputSchema's `required` field list
(property types and description strings are not consulted by the
dispatcher). -/
structure ToolDecl where
  name : String
  required : List String
deriving Repr, DecidableEq

/-- The ALL_TOOLS registry of src/tools.ts: every declared tool name
with its declared required fields, in source order. -/
def ALL_TOOLS : List ToolDecl := [
  ⟨"walletStatus", []⟩,
  ⟨"walletAddress", []⟩,
  ⟨"walletBalance", []⟩,
  ⟨"send", ["destinationAddress", "amount"]⟩,
  ⟨"verifyTransaction", ["identifier"]⟩,
  ⟨"getTransactionStatus", ["transactionId"]⟩,
  ⟨"getTransactions", []⟩,
  ⟨"getWalletConfig", []⟩,
  ⟨"getTokenBalance", ["tokenName"]⟩,
  ⟨"registerInMarketplace", ["userId", "userData"]⟩,
  ⟨"verifyUserInMarketplace", ["userId", "verificationData"]⟩,
  ⟨"openDaoElection", ["contractAddress", "electionId"]⟩,
  ⟨"closeDaoElection", ["contractAddress"]⟩,
  ⟨"castDaoVote",
    ["contractAddress", "voteType", "voteCoinNonce", "voteCoinColor",
     "voteCoinValue"]⟩,
  ⟨"fundDaoTreasury",
    ["contractAddress", "fundCoinNonce", "fundCoinColor", "fundCoinValue"]⟩,
  ⟨"payoutDaoProposal", ["contractAddress"]⟩,
  ⟨"getDaoElectionStatus", ["contractAddress"]⟩,
  ⟨"getDaoState", ["contractAddress"]⟩]

/-- HTTP request issued by the dispatcher to the wallet backend through
httpClient. -/
inductive HttpReq where
  | get (path : String)
  | post (path : String) (body : List (String × JsValue))

/-- Error codes of the protocol SDK's McpError, with their JSON-RPC
integer values. -/
inductive McpErrorCode where
  | connectionClosed
  | requestTimeout
  | parseError
  | invalidRequest
  | methodNotFound
  | invalidParams
  | internalError
deriving Repr, DecidableEq

/-- JSON-RPC integer value of each SDK error code. -/
def McpErrorCode.code : McpErrorCode → Int
  | .connectionClosed => -32000
  | .requestTimeout => -32001
  | .parseError => -32700
  | .invalidRequest => -32600
  | .methodNotFound => -32601
  | .invalidParams => -32602
  | .internalError => -32603

/-- Outcome of one dispatcher invocation: either a single backend
request whose JSON result is wrapped as the text content of the reply,
a thrown McpError, or a thrown TypeError (calling toLowerCase on a
truthy non-string token, which the source would not catch). -/
inductive ToolResult where
  | call (req : HttpReq)
  | err (code : McpErrorCode) (msg : String)
  | typeError

/-- Lower-casing used by the dispatcher's token comparisons
(toLowerCase in the source; ASCII suffices for the compared names).
Implemented over the character list so it evaluates by kernel
reduction. -/
def lowerStr (s : String) : String := ⟨s.data.map Char.toLower⟩

/-- Lower-cased token names that select the native-funds route in the
`send` and `getTokenBalance` handlers. -/
def nativeNameMatch (s : String) : Bool :=
  lowerStr s = "native" || lowerStr s = "tdust" || lowerStr s = "dust"

/-- Embedding of handleToolCall (src/tools.ts): a JavaScript switch on
the tool name, compared case by case in source order.  Each case checks
truthiness of its required arguments, throwing an InvalidParams McpError
when one is missing, and otherwise issues exactly one backend request.
The outer try/catch of the source only logs and rethrows, so it does
not alter the outcome. -/
def handleToolCall (toolName : String) (args : ToolArgs) : ToolResult :=
  if toolName = "walletStatus" then .call (.get "/wallet/status")
  else if toolName = "walletAddress" then .call (.get "/wallet/address")
  else if toolName = "walletBalance" then .call (.get "/wallet/balance")
  else if toolName = "send" then
    let d := getArg args "destinationAddress"
    let a := getArg args "amount"
    let t := getArg args "token"
    if !truthy d || !truthy a then
      .err .invalidParams
        "Missing required parameters: destinationAddress and amount"
    else if !truthy t then
      .call (.post "/wallet/send" [("destinationAddress", d), ("amount", a)])
    else
      match t with
      | .vstr s =>
          if nativeNameMatch s then
            .call (.post "/wallet/send"
              [("destinationAddress", d), ("amount", a)])
          else
            .call (.post "/wallet/tokens/send"
              [("tokenName", t), ("toAddress", d), ("amount", a)])
      | _ => .typeError
  else if toolName = "verifyTransaction" then
    let i := getArg args "identifier"
    if !truthy i then
      .err .invalidParams "Missing required parameter: identifier"
    else .call (.post "/wallet/verify-transaction" [("identifier", i)])
  else if toolName = "getTransactionStatus" then
    let tid := getArg args "transactionId"
    if !truthy tid then
      .err .invalidParams "Missing required parameter: transactionId"
    else .call (.get ("/wallet/transaction/" ++ jsTemplate tid))
  else if toolName = "getTransactions" then
    .call (.get "/wallet/transactions")
  else if toolName = "getPendingTransactions" then
    .call (.get "/wallet/pending-transactions")
  else if toolName = "getWalletConfig" then
    .call (.get "/wallet/config")
  else if toolName = "getTokenBalance" then
    let tn := getArg args "tokenName"
    if !truthy tn then
      .err .invalidParams "Missing required parameter: tokenName"
    else
      match tn with
      | .vstr s =>
          if nativeNameMatch s then .call (.get "/wallet/balance")
          else .call (.get ("/wallet/tokens/balance/" ++ s))
      | _ => .typeError
  else if toolName = "registerInMarketplace" then
    let u := getArg args "userId"
    let ud := getArg args "userData"
    if !truthy u || !truthy ud then
      .err .invalidParams "Missing required parameters: userId and userData"
    else .call (.post "/marketplace/register" [("userId", u), ("userData", ud)])
  else if toolName = "verifyUserInMarketplace" then
    let u := getArg args "userId"
    let vd := getArg args "verificationData"
    if !truthy u || !truthy vd then
      .err .invalidParams
        "Missing required parameters: userId and verificationData"
    else .call (.post "/marketplace/verify"
      [("userId", u), ("verificationData", vd)])
  else if toolName = "openDaoElection" then
    let c := getArg args "contractAddress"
    let e := getArg args "electionId"
    if !truthy c || !truthy e then
      .err .invalidParams
        "Missing required parameters: contractAddress and electionId"
    else .call (.post "/dao/open-election"
      [("contractAddress", c), ("electionId", e)])
  else if toolName = "closeDaoElection" then
    let c := getArg args "contractAddress"
    if !truthy c then
      .err .invalidParams "Missing required parameter: contractAddress"
    else .call (.post "/dao/close-election" [("contractAddress", c)])
  else if toolName = "castDaoVote" then
    let c := getArg args "contractAddress"
    let vt := getArg args "voteType"
    let n := getArg args "voteCoinNonce"
    let col := getArg args "voteCoinColor"
    let v := getArg args "voteCoinValue"
    if !truthy c || !truthy vt || !truthy n || !truthy col || !truthy v then
      .err .invalidParams
        "Missing required parameters: contractAddress, voteType, voteCoinNonce, voteCoinColor, voteCoinValue"
    else .call (.post "/dao/cast-vote"
      [("contractAddress", c), ("voteType", vt),
       ("voteCoin", .vobj [("nonce", n), ("color", col), ("value", v)])])
  else if toolName = "fundDaoTreasury" then
    let c := getArg args "contractAddress"
    let n := getArg args "fundCoinNonce"
    let col := getArg args "fundCoinColor"
    let v := getArg args "fundCoinValue"
    if !truthy c || !truthy n || !truthy col || !truthy v then
      .err .invalidParams
        "Missing required parameters: contractAddress, fundCoinNonce, fundCoinColor, fundCoinValue"
    else .call (.post "/dao/fund-treasury"
      [("contractAddress", c),
       ("fundCoin", .vobj [("nonce", n), ("color", col), ("value", v)])])
  else if toolName = "payoutDaoProposal" then
    let c := getArg args "contractAddress"
    if !truthy c then
      .err .invalidParams "Missing required parameter: contractAddress"
    else .call (.post "/dao/payout-proposal" [("contractAddress", c)])
  else if toolName = "getDaoElectionStatus" then
    let c := getArg args "contractAddress"
    if !truthy c then
      .err .invalidParams "Missing required parameter: contractAddress"
    else .call (.get ("/dao/election-status/" ++ jsTemplate c))
  else if toolName = "getDaoState" then
    let c := getArg args "contractAddress"
    if !truthy c then
      .err .invalidParams "Missing required parameter: contractAddress"
    else .call (.get ("/dao/state/" ++ jsTemplate c))
  else
    .err .invalidParams ("Unknown tool: " ++ toolName)

/-- Claim-side routing predicate for the `send` tool, written from the
amended specification sentence: the native route is selected when the
token argument is absent, empty, or names the native token
case-insensitively. -/
def specSendIsNative : Option String → Bool
  | none => true
  | some s => s = "" || nativeNameMatch s

/-- Argument object of a `send` call with both mandatory fields and an
optionally supplied string token. -/
def sendArgs (d a : String) : Option String → ToolArgs
  | none => [("destinationAddress", .vstr d), ("amount", .vstr a)]
  | some s =>
      [("destinationAddress", .vstr d), ("amount", .vstr a),
       ("token", .vstr s)]

/-! HTTP gateway (the Express server): streamable /mcp endpoint, legacy
SSE /messages endpoint, error envelopes, shutdown handler. -/

/-- HTTP method of a request reaching the /mcp route.  The SDK
transport accepts only these verbs; the handler branches on GET and
DELETE and treats the remaining case as the POST path. -/
inductive HMethod where
  | get
  | post
  | delete
deriving Repr, DecidableEq

/-- Request reaching the streamable /mcp route: Authorization header,
the mcp-session-id header, and whether isInitializeRequest(req.body)
holds.  An empty header value is falsy in the source and is modelled as
`none`. -/
structure StreamRequest where
  method : HMethod
  authHeader : Option String
  sessionId : Option String
  bodyIsInit : Bool
deriving Repr, DecidableEq

/-- JSON-RPC error object sent in a response body; `data` is the
optional data field. -/
structure RpcErrorBody where
  code : Int
  message : String
  data : Option String
deriving Repr, DecidableEq

/-- Response of the /mcp route, as far as session logic is concerned:
a 401 unauthorized rejection, a 400 plain-text rejection of a GET or
DELETE with a bad session id, forwarding to an existing transport, the
creation of a new session-bound transport, or the 400 JSON-RPC
rejection of an unacceptable POST. -/
inductive StreamOutcome where
  | unauthorized (status : Nat) (err : RpcErrorBody)
  | invalidSession (status : Nat) (text : String)
  | handled (sid : String)
  | created (sid : String)
  | badRequest (status : Nat) (err : RpcErrorBody)
deriving Repr, DecidableEq

/-- True when the outcome is an error response rather than forwarding
or session creation. -/
def StreamOutcome.isRejection : StreamOutcome → Bool
  | .unauthorized _ _ => true
  | .invalidSession _ _ => true
  | .badRequest _ _ => true
  | .handled _ => false
  | .created _ => false

/-- Embedding of the app.all('/mcp') handler: credential check first
(when CHECK_AUTH is set, a missing or mismatched `Bearer <API_KEY>`
header is rejected 401 before any session logic); then GET/DELETE
session requests, which require a registered session id; then the POST
path, which reuses a registered session, creates one for an
initialization request with no session id, and rejects everything else.
The streamable session registry is a list of session ids threaded
through the handler; `freshId` stands for the randomUUID the transport
generates for a new session. -/
def mcpHandle (checkAuth : Bool) (apiKey : String) (reg : List String)
    (r : StreamRequest) (freshId : String) : StreamOutcome × List String :=
  if checkAuth ∧ r.authHeader ≠ some ("Bearer " ++ apiKey) then
    (.unauthorized 401 ⟨-32000, "Unauthorized", none⟩, reg)
  else if r.method = .get ∨ r.method = .delete then
    match r.sessionId with
    | some sid =>
        if reg.contains sid then (.handled sid, reg)
        else (.invalidSession 400 "Invalid or missing session ID", reg)
    | none => (.invalidSession 400 "Invalid or missing session ID", reg)
  else
    match r.sessionId with
    | some sid =>
        if reg.contains sid then (.handled sid, reg)
        else (.badRequest 400
          ⟨-32000, "Bad Request: No valid session ID provided", none⟩, reg)
    | none =>
        if r.bodyIsInit then (.created freshId, freshId :: reg)
        else (.badRequest 400
          ⟨-32000, "Bad Request: No valid session ID provided", none⟩, reg)

/-- Error envelope sent by the catch block of the /mcp handler: a 500
with a generic internal-error object whose data field is absent,
whatever the internal exception's message was. -/
def mcpStreamErrorResponse (internalMsg : String) : Nat × RpcErrorBody :=
  (500, ⟨-32603, "Internal server error", none⟩)

/-- Request reaching the /messages route: Authorization header (never
read by the source handler) and the sessionId query parameter. -/
structure MessagesRequest where
  authHeader : Option String
  sessionId : String
deriving Repr, DecidableEq

/-- Response of the /messages route: the message was forwarded to the
session's transport, the transport's handlePostMessage threw (500 whose
error object carries the exception's message as data), or no transport
is registered under the session id (400 client error). -/
inductive MessagesOutcome where
  | processed (sid : String)
  | postError (status : Nat) (err : RpcErrorBody)
  | sessionNotFound (status : Nat) (err : RpcErrorBody)
deriving Repr, DecidableEq

/-- Embedding of the app.post('/messages') handler.  The source reads
no credential on this route, so `checkAuth`, `apiKey` and the request's
Authorization header do not influence the outcome.  `postResult` is the
outcome of transport.handlePostMessage for a registered session: on an
exception its message is embedded as the `data` of the 500 error
object (source line `data: error instanceof Error ? error.message :
String(error)`). -/
def messagesHandle (checkAuth : Bool) (apiKey : String)
    (sseReg : List String) (r : MessagesRequest)
    (postResult : Except String Unit) : MessagesOutcome × List String :=
  if sseReg.contains r.sessionId then
    match postResult with
    | .ok _ => (.processed r.sessionId, sseReg)
    | .error e =>
        (.postError 500 ⟨-32603, "Error processing message", some e⟩, sseReg)
  else
    (.sessionNotFound 400
      ⟨-32000, "No transport found for sessionId " ++ r.sessionId, none⟩,
     sseReg)

/-- Error envelope of the outer catch of the /messages handler: also a
500 whose error object carries the internal exception's message as
data. -/
def messagesOuterErrorResponse (internalMsg : String) : Nat × RpcErrorBody :=
  (500, ⟨-32603, "Internal server error", some internalMsg⟩)

/-- Events of the shutdown sequence run by the SIGINT and SIGTERM
handlers: a close attempt on an SSE transport, a close attempt on a
streamable transport, the close of the backend wallet server, and
process exit. -/
inductive ShutdownEv where
  | closeSse (sid : String)
  | closeStreamable (sid : String)
  | closeBackend
  | exitProcess
deriving Repr, DecidableEq

/-- One for-in loop of the shutdown handler over one transport
registry: each session's close is attempted inside try/catch; on
success the entry is deleted, on an exception (closeOk false) the error
is logged and the entry survives, and iteration continues either way.
Returns the trace of close attempts and the remaining registry. -/
def closeSessions (closeOk : String → Bool) (mk : String → ShutdownEv) :
    List String → List ShutdownEv × List String
  | [] => ([], [])
  | sid :: rest =>
      let tail := closeSessions closeOk mk rest
      (mk sid :: tail.1, if closeOk sid then tail.2 else sid :: tail.2)

/-- Embedding of the SIGINT/SIGTERM handler: close every SSE transport,
then every streamable transport, then the backend wallet server
(midnightServer.close()), then process.exit(0).  Returns the event
trace and both remaining registries. -/
def shutdownHandler (closeOk : String → Bool)
    (sseReg streamableReg : List String) :
    List ShutdownEv × (List String × List String) :=
  let sse := closeSessions closeOk .closeSse sseReg
  let st := closeSessions closeOk .closeStreamable streamableReg
  (sse.1 ++ st.1 ++ [.closeBackend, .exitProcess], (sse.2, st.2))

/-! MCP server facade over the wallet (confirmTransactionHasBeenReceived). -/

/-- Error kinds of the MCP API (MCPErrorType of the source). -/
inductive MCPErrorType where
  | WALLET_NOT_READY
  | INSUFFICIENT_FUNDS
  | TX_SUBMISSION_FAILED
  | TX_NOT_FOUND
  | IDENTIFIER_VERIFICATION_FAILED
deriving Repr, DecidableEq

/-- Sync status triple carried by verification answers.  The source's
bigint counters are modelled as integers.  The `exists` field of the
source is rendered `texists` (`exists` is reserved in Lean). -/
structure SyncStatusInfo where
  syncedIndices : Int
  totalIndices : Int
  isFullySynced : Bool
deriving Repr, DecidableEq

/-- Flat result of WalletManager.hasReceivedTransactionByIdentifier. -/
structure WalletVerifyResult where
  texists : Bool
  syncedIndices : Int
  totalIndices : Int
  isFullySynced : Bool
deriving Repr, DecidableEq

/-- Shape of the answer returned to the caller: existence plus the
nested sync status object. -/
structure VerifyResponse where
  texists : Bool
  syncStatus : SyncStatusInfo
deriving Repr, DecidableEq

/-- Embedding of MCPServer.confirmTransactionHasBeenReceived: a
readiness gate throwing WALLET_NOT_READY, then the wallet query, whose
result is repackaged as {exists, syncStatus} and whose exception is
rethrown as IDENTIFIER_VERIFICATION_FAILED with the underlying message
appended.  `ready` is this.isReady() and `query` the wallet call's
outcome. -/
def confirmTransactionHasBeenReceived (ready : Bool)
    (query : Except String WalletVerifyResult) :
    Except (MCPErrorType × String) VerifyResponse :=
  if !ready then .error (.WALLET_NOT_READY, "Wallet is not ready")
  else
    match query with
    | .ok r =>
        .ok ⟨r.texists, ⟨r.syncedIndices, r.totalIndices, r.isFullySynced⟩⟩
    | .error e =>
        .error (.IDENTIFIER_VERIFICATION_FAILED,
          "Failed to verify transaction with identifier: " ++ e)

/-- True when the dispatcher outcome is a thrown McpError with the
InvalidParams code (ErrorCode.InvalidParams of the SDK).  Exclusive
with `ToolResult.call`, so such an outcome issues no backend request
and therefore creates no transaction record. -/
def ToolResult.isInvalidParamsError : ToolResult → Bool
  | .err .invalidParams _ => true
  | _ => false

/-- True when the request's session id header is present and registered
(the `sessionId && transports.streamable[sessionId]` test of the
source). -/
def sessionKnown (reg : List String) : Option String → Bool
  | none => false
  | some sid => reg.contains sid

/-! Theorems. -/

/-- Keys of an object are untouched by the serializer. -/
theorem serializeBigIntsFields_keys :
    ∀ fs : List (String × JsValue),
      (serializeBigIntsFields fs).map Prod.fst = fs.map Prod.fst
  | [] => by simp [serializeBigIntsFields]
  | (k, v) :: rest => by
      simp [serializeBigIntsFields, serializeBigIntsFields_keys rest]

mutual

/-- Soundness of the serializer against the spec relation. -/
theorem serializeBigInts_sound :
    ∀ v : JsValue, BigIntSerialized v (serializeBigInts v)
  | .vnull => by simp only [serializeBigInts]; exact .nullv
  | .vundefined => by simp only [serializeBigInts]; exact .undef
  | .vbool b => by simp only [serializeBigInts]; exact .boolv b
  | .vnum n => by simp only [serializeBigInts]; exact .numv n
  | .vstr s => by simp only [serializeBigInts]; exact .strv s
  | .vbigint n => by simp only [serializeBigInts]; exact .bigint n
  | .varr elems => by
      simp only [serializeBigInts]
      exact .arr (serializeBigIntsList_sound elems)
  | .vobj fields => by
      simp only [serializeBigInts]
      exact .obj (serializeBigIntsFields_keys fields).symm
        (serializeBigIntsFields_sound fields)

/-- Soundness of the serializer on array elements. -/
theorem serializeBigIntsList_sound :
    ∀ xs : List JsValue,
      List.Forall₂ BigIntSerialized xs (serializeBigIntsList xs)
  | [] => by simp only [serializeBigIntsList]; exact .nil
  | v :: rest => by
      simp only [serializeBigIntsList]
      exact .cons (serializeBigInts_sound v) (serializeBigIntsList_sound rest)

/-- Soundness of the serializer on object entry values. -/
theorem serializeBigIntsFields_sound :
    ∀ fs : List (String × JsValue),
      List.Forall₂ BigIntSerialized (fs.map Prod.snd)
        ((serializeBigIntsFields fs).map Prod.snd)
  | [] => by simp only [serializeBigIntsFields, List.map]; exact .nil
  | (k, v) :: rest => by
      simp only [serializeBigIntsFields, List.map]
      exact .cons (serializeBigInts_sound v)
        (serializeBigIntsFields_sound rest)

end

/-- C8: serializeBigInts, applied to every DAO operation result before
it is placed in the response's data field, returns a value of the same
shape in which every bigint at any depth is replaced by its exact
decimal string representation, every non-bigint leaf is unchanged, and
nothing becomes a binary floating-point number (the spec relation
BigIntSerialized states exactly these clauses). -/
theorem serializeBigInts_meets_serialization_spec
    (message : String) (result : JsValue) :
    BigIntSerialized result (serializeBigInts result)
    ∧ (daoSuccessResponse message result).2 = some (serializeBigInts result) :=
  ⟨serializeBigInts_sound result, rfl⟩

/-- C7: confirmTransactionHasBeenReceived throws WALLET_NOT_READY when
the wallet is not ready; on a successful query it returns exists
together with the syncStatus triple (syncedIndices, totalIndices,
isFullySynced), so that a not-found answer while unsynced differs from
a not-found answer while fully synced; and when the query itself errors
it throws IDENTIFIER_VERIFICATION_FAILED, distinct from a successful
not-found answer. -/
theorem confirmTransactionHasBeenReceived_behavior :
    (∀ q, confirmTransactionHasBeenReceived false q
        = .error (.WALLET_NOT_READY, "Wallet is not ready"))
    ∧ (∀ r : WalletVerifyResult,
        confirmTransactionHasBeenReceived true (.ok r)
          = .ok ⟨r.texists, ⟨r.syncedIndices, r.totalIndices, r.isFullySynced⟩⟩)
    ∧ (∀ e, confirmTransactionHasBeenReceived true (.error e)
        = .error (.IDENTIFIER_VERIFICATION_FAILED,
            "Failed to verify transaction with identifier: " ++ e))
    ∧ (∀ i t : Int,
        confirmTransactionHasBeenReceived true (.ok ⟨false, i, t, false⟩)
          ≠ confirmTransactionHasBeenReceived true (.ok ⟨false, i, t, true⟩)) := by
  refine ⟨fun q => rfl, fun r => rfl, fun e => rfl, fun i t h => ?_⟩
  simp [confirmTransactionHasBeenReceived] at h

/-- Trace of one shutdown loop: every session in the registry gets a
close attempt, in registry order, whatever the per-session close
outcomes are. -/
theorem closeSessions_trace (closeOk : String → Bool)
    (mk : String → ShutdownEv) :
    ∀ l : List String, (closeSessions closeOk mk l).1 = l.map mk
  | [] => rfl
  | sid :: rest => by
      simp [closeSessions, closeSessions_trace closeOk mk rest]

/-- Remaining registry of one shutdown loop: exactly the sessions whose
close attempt failed. -/
theorem closeSessions_remaining (closeOk : String → Bool)
    (mk : String → ShutdownEv) :
    ∀ l : List String,
      (closeSessions closeOk mk l).2 = l.filter (fun s => !closeOk s)
  | [] => rfl
  | sid :: rest => by
      by_cases h : closeOk sid <;>
        simp [closeSessions, closeSessions_remaining closeOk mk rest, h]

/-- C9: on a termination signal the gateway attempts to close every
live session of both transport registries — a failing close is caught
and does not prevent any other attempt, as the trace of attempts is
independent of which closes fail — the sessions closed successfully are
removed from their registry, and the backend client is closed only
after every session has been attempted, before the process exits. -/
theorem shutdown_attempts_all_sessions_then_backend
    (closeOk : String → Bool) (sseReg streamableReg : List String) :
    (shutdownHandler closeOk sseReg streamableReg).1
      = sseReg.map .closeSse ++ streamableReg.map .closeStreamable
          ++ [.closeBackend, .exitProcess]
    ∧ (shutdownHandler closeOk sseReg streamableReg).2
      = (sseReg.filter (fun s => !closeOk s),
         streamableReg.filter (fun s => !closeOk s)) := by
  constructor <;>
    simp [shutdownHandler, closeSessions_trace, closeSessions_remaining]

/-- C5: a push-pair POST referencing a session id that was never opened
(or whose transport already closed — closed transports are deleted from
the registry by the connection's close handler) is rejected with a 400
session-not-found client error, does not create a session, and leaves
the registry untouched; no transaction state is reachable from this
branch. -/
theorem messages_unknown_session_rejected (checkAuth : Bool)
    (apiKey : String) (sseReg : List String) (r : MessagesRequest)
    (post : Except String Unit)
    (h : sseReg.contains r.sessionId = false) :
    messagesHandle checkAuth apiKey sseReg r post
      = (.sessionNotFound 400
          ⟨-32000, "No transport found for sessionId " ++ r.sessionId, none⟩,
         sseReg) := by
  simp only [messagesHandle]
  rw [if_neg (by simpa using h)]

/-- Witness for C5 at a concrete unknown session id. -/
theorem messages_unknown_session_rejected_witness :
    messagesHandle true "secret" ["sess-A"]
        ⟨some "Bearer secret", "sess-B"⟩ (.ok ())
      = (.sessionNotFound 400
          ⟨-32000, "No transport found for sessionId " ++ "sess-B", none⟩,
         ["sess-A"]) :=
  messages_unknown_session_rejected true "secret" ["sess-A"]
    ⟨some "Bearer secret", "sess-B"⟩ (.ok ()) (by decide)

/-- C2 counterexample: on the push-pair message endpoint, an exception
raised while handling a request is reported with the internal
exception's message embedded as the data field of the error response
crossing the boundary — contradicting the claim that no internal
exception detail is ever included on any transport. -/
theorem messages_error_response_leaks_internal_message :
    messagesHandle false "" ["sess-1"] ⟨none, "sess-1"⟩
        (.error "connect ECONNREFUSED 127.0.0.1:3000")
      = (.postError 500
          ⟨-32603, "Error processing message",
           some "connect ECONNREFUSED 127.0.0.1:3000"⟩,
         ["sess-1"]) := rfl

/-- C2 amended: errors on the stream endpoint are reported with a
generic code and message and no data, independent of the internal
exception; but the push-pair message endpoint embeds the internal
exception's message as the data field of its error responses, both in
the per-message handler and in its outer catch. -/
theorem gateway_error_detail_by_transport (checkAuth : Bool)
    (apiKey : String) (sseReg : List String) (r : MessagesRequest)
    (m : String) (h : sseReg.contains r.sessionId = true) :
    (∀ internalMsg, mcpStreamErrorResponse internalMsg
        = (500, ⟨-32603, "Internal server error", none⟩))
    ∧ messagesHandle checkAuth apiKey sseReg r (.error m)
        = (.postError 500 ⟨-32603, "Error processing message", some m⟩, sseReg)
    ∧ (messagesOuterErrorResponse m).2.data = some m :=
  ⟨fun _ => rfl, by simp only [messagesHandle]; rw [if_pos h], rfl⟩

/-- Witness for the amended C2 at a concrete session and error. -/
theorem gateway_error_detail_by_transport_witness :
    (∀ internalMsg, mcpStreamErrorResponse internalMsg
        = (500, ⟨-32603, "Internal server error", none⟩))
    ∧ messagesHandle true "key" ["sess-1"] ⟨none, "sess-1"⟩ (.error "boom")
        = (.postError 500
            ⟨-32603, "Error processing message", some "boom"⟩, ["sess-1"])
    ∧ (messagesOuterErrorResponse "boom").2.data = some "boom" :=
  gateway_error_detail_by_transport true "key" ["sess-1"]
    ⟨none, "sess-1"⟩ "boom" (by decide)

/-- C1 counterexample: with authentication enabled, a push-pair POST
carrying no credential at all against a registered session is processed
normally instead of being rejected UNAUTHORIZED — the credential check
is not applied to the push-pair transport. -/
theorem pushpair_request_without_credential_is_processed :
    messagesHandle true "secret-key" ["sess-1"] ⟨none, "sess-1"⟩ (.ok ())
      = (.processed "sess-1", ["sess-1"]) := rfl

/-- C1 amended: when authentication is enabled, every stream-transport
request whose bearer credential is missing or differs from the
configured secret is rejected 401 UNAUTHORIZED before any
session-registry or dispatch logic, leaving the registry unchanged;
the push-pair message endpoint, however, performs no credential check —
its outcome is entirely independent of the configuration and of the
credential carried. -/
theorem credential_check_stream_only :
    (∀ (apiKey : String) (reg : List String) (r : StreamRequest)
        (freshId : String),
      r.authHeader ≠ some ("Bearer " ++ apiKey) →
        mcpHandle true apiKey reg r freshId
          = (.unauthorized 401 ⟨-32000, "Unauthorized", none⟩, reg))
    ∧ (∀ (ca ca' : Bool) (key key' : String) (sseReg : List String)
        (a a' : Option String) (sid : String) (post : Except String Unit),
      messagesHandle ca key sseReg ⟨a, sid⟩ post
        = messagesHandle ca' key' sseReg ⟨a', sid⟩ post) := by
  constructor
  · intro apiKey reg r freshId h
    simp [mcpHandle, h]
  · intro ca ca' key key' sseReg a a' sid post
    rfl

/-- Witness for the amended C1: a concrete credential-less stream
request is rejected 401 with the registry unchanged, while the same
absence of a credential leaves a push-pair request's outcome identical
under enabled and disabled authentication. -/
theorem credential_check_stream_only_witness :
    mcpHandle true "k1" ["s0"] ⟨.post, none, some "s0", false⟩ "f1"
      = (.unauthorized 401 ⟨-32000, "Unauthorized", none⟩, ["s0"])
    ∧ messagesHandle true "k1" ["s0"] ⟨none, "s0"⟩ (.ok ())
        = messagesHandle false "other" ["s0"] ⟨some "Bearer wrong", "s0"⟩
            (.ok ()) :=
  ⟨credential_check_stream_only.1 "k1" ["s0"]
      ⟨.post, none, some "s0", false⟩ "f1" (by decide),
   credential_check_stream_only.2 true false "k1" "other" ["s0"]
      none (some "Bearer wrong") "s0" (.ok ())⟩

/-- C4 counterexample: a stream-transport GET that carries no session
id and whose body is an initialization request is rejected with a 400
error and no session is created — the claimed iff (creation exactly
when no session id is carried and the body is an initialization
request) fails on non-POST verbs. -/
theorem stream_get_with_init_body_not_created :
    mcpHandle false "" [] ⟨.get, none, none, true⟩ "fresh-1"
      = (.invalidSession 400 "Invalid or missing session ID", []) := rfl

/-- C4 amended: on the stream transport (with the credential check
passing) a new session is created if and only if the request is a POST
carrying no session id whose body is an initialization request; every
other request carrying an unknown or missing session id is rejected
with an error response and leaves the registry unchanged. -/
theorem stream_session_creation_iff (checkAuth : Bool) (apiKey : String)
    (reg : List String) (r : StreamRequest) (freshId : String)
    (hauth : ¬(checkAuth ∧ r.authHeader ≠ some ("Bearer " ++ apiKey))) :
    ((mcpHandle checkAuth apiKey reg r freshId).1 = .created freshId
      ↔ (r.method = .post ∧ r.sessionId = none ∧ r.bodyIsInit = true))
    ∧ (sessionKnown reg r.sessionId = false →
        ¬(r.method = .post ∧ r.sessionId = none ∧ r.bodyIsInit = true) →
        ((mcpHandle checkAuth apiKey reg r freshId).1.isRejection = true
          ∧ (mcpHandle checkAuth apiKey reg r freshId).2 = reg)) := by
  obtain ⟨m, ah, sid, init⟩ := r
  rw [mcpHandle, if_neg hauth]
  cases m <;> cases sid <;> cases init <;>
    simp_all [sessionKnown, StreamOutcome.isRejection] <;>
    rename_i s <;> by_cases h : reg.contains s <;>
      simp_all [StreamOutcome.isRejection]

/-- Witness for the amended C4: a concrete initialization POST with no
session id is created; and the iff and rejection clauses hold at that
configuration. -/
theorem stream_session_creation_iff_witness :
    ((mcpHandle false "" ["a"] ⟨.post, none, none, true⟩ "n1").1
        = .created "n1"
      ↔ ((HMethod.post = HMethod.post) ∧ (none : Option String) = none
          ∧ true = true))
    ∧ (sessionKnown ["a"] none = false →
        ¬((HMethod.post = HMethod.post) ∧ (none : Option String) = none
            ∧ true = true) →
        ((mcpHandle false "" ["a"] ⟨.post, none, none, true⟩ "n1").1.isRejection
            = true
          ∧ (mcpHandle false "" ["a"] ⟨.post, none, none, true⟩ "n1").2
              = ["a"])) :=
  stream_session_creation_iff false "" ["a"] ⟨.post, none, none, true⟩ "n1"
    (by simp)

/-- C3 counterexample: the unknown-tool claim fails twice on the code.
The name getPendingTransactions is absent from the ALL_TOOLS registry,
yet dispatching it issues a backend request instead of failing; and a
name with no handler at all fails with an McpError carrying
ErrorCode.InvalidParams (-32602) — the very code of INVALID_PARAMS and
also the code a missing-argument failure carries — rather than a
distinct UNKNOWN_TOOL error kind. -/
theorem unknown_tool_dispatch_counterexample :
    ((ALL_TOOLS.map ToolDecl.name).contains "getPendingTransactions" = false
      ∧ handleToolCall "getPendingTransactions" []
          = .call (.get "/wallet/pending-transactions"))
    ∧ ((ALL_TOOLS.map ToolDecl.name).contains "burnTokens" = false
      ∧ handleToolCall "burnTokens" []
          = .err .invalidParams ("Unknown tool: " ++ "burnTokens")
      ∧ McpErrorCode.invalidParams.code = -32602
      ∧ (handleToolCall "send" []).isInvalidParamsError = true) :=
  ⟨⟨by decide, rfl⟩, by decide, rfl, by decide, rfl⟩

/-- C3 amended: dispatching any tool name that has no handler — that
is, any name outside the registry other than getPendingTransactions,
which is handled despite being unregistered — fails with an McpError
whose message is "Unknown tool: name", never a silent no-op, but
carrying the InvalidParams code shared with parameter errors rather
than a distinct unknown-tool kind. -/
theorem unknown_tool_invalid_params_error (toolName : String)
    (args : ToolArgs)
    (hreg : (ALL_TOOLS.map ToolDecl.name).contains toolName = false)
    (hpend : toolName ≠ "getPendingTransactions") :
    handleToolCall toolName args
      = .err .invalidParams ("Unknown tool: " ++ toolName) := by
  simp only [ALL_TOOLS, List.map, List.contains_cons,
    List.contains_nil, Bool.or_eq_false_iff, beq_eq_false_iff_ne, ne_eq] at hreg
  obtain ⟨h1, h2, h3, h4, h5, h6, h7, h8, h9, h10, h11, h12, h13, h14,
    h15, h16, h17, h18, -⟩ := hreg
  simp [handleToolCall, h1, h2, h3, h4, h5, h6, h7, h8, h9, h10, h11,
    h12, h13, h14, h15, h16, h17, h18, hpend]

/-- Witness for the amended C3 at a concrete unhandled name. -/
theorem unknown_tool_invalid_params_error_witness :
    handleToolCall "burnNft" []
      = .err .invalidParams ("Unknown tool: " ++ "burnNft") :=
  unknown_tool_invalid_params_error "burnNft" [] (by decide) (by decide)

/-- C6: for every tool of the registry, a call whose arguments leave
any declared required field absent (or otherwise falsy, as the source's
truthiness checks cannot tell these apart) fails with an InvalidParams
McpError; the outcome is an error, not a backend call, so no part of
the operation executes and no transaction record is created. -/
theorem missing_required_field_invalid_params (t : ToolDecl)
    (ht : t ∈ ALL_TOOLS) (args : ToolArgs) (f : String)
    (hf : f ∈ t.required)
    (hmiss : truthy (getArg args f) = false) :
    (handleToolCall t.name args).isInvalidParamsError = true := by
  fin_cases ht <;> fin_cases hf <;>
    simp_all [handleToolCall, ToolResult.isInvalidParamsError]

/-- Witness for C6 at the spec's own scenario: a send call supplying
only destinationAddress (missing amount) fails with InvalidParams. -/
theorem missing_required_field_invalid_params_witness :
    (⟨"send", ["destinationAddress", "amount"]⟩ : ToolDecl) ∈ ALL_TOOLS
    ∧ (handleToolCall "send"
        [("destinationAddress", .vstr "addr-X")]).isInvalidParamsError
        = true :=
  ⟨by decide,
   missing_required_field_invalid_params
     ⟨"send", ["destinationAddress", "amount"]⟩ (by decide)
     [("destinationAddress", .vstr "addr-X")] "amount" (by decide) rfl⟩

/-- C10 counterexample: a send call whose token argument is present but
the empty string — neither absent nor one of the native token names —
is still routed to the native-funds endpoint, because the source tests
JavaScript truthiness, under which an empty string counts as no token.
The claimed iff (native exactly when absent or named native) is
therefore false at this input. -/
theorem send_empty_token_routes_native :
    handleToolCall "send" (sendArgs "addr-X" "10" (some ""))
      = .call (.post "/wallet/send"
          [("destinationAddress", .vstr "addr-X"), ("amount", .vstr "10")])
    ∧ nativeNameMatch "" = false :=
  ⟨rfl, by decide⟩

/-- C10 amended: with both mandatory fields supplied and the token
argument either absent or a string, the call is routed to the
native-funds endpoint /wallet/send with destinationAddress and amount
exactly when the token is absent, empty, or equals native, tdust or
dust case-insensitively; every other token string routes to the
shielded-token endpoint /wallet/tokens/send with tokenName, toAddress
and amount. -/
theorem send_token_routing (d a : String) (hd : d ≠ "") (ha : a ≠ "")
    (tok : Option String) :
    handleToolCall "send" (sendArgs d a tok)
      = (if specSendIsNative tok then
          .call (.post "/wallet/send"
            [("destinationAddress", .vstr d), ("amount", .vstr a)])
        else
          .call (.post "/wallet/tokens/send"
            [("tokenName", .vstr (tok.getD "")), ("toAddress", .vstr d),
             ("amount", .vstr a)])) := by
  have hde : d.isEmpty = false := by
    cases h : d.isEmpty
    · rfl
    · exact absurd ((String.isEmpty_iff d).mp h) hd
  have hae : a.isEmpty = false := by
    cases h : a.isEmpty
    · rfl
    · exact absurd ((String.isEmpty_iff a).mp h) ha
  have h0 : ("" : String).isEmpty = true := rfl
  cases tok with
  | none =>
      simp [handleToolCall, sendArgs, getArg, List.lookup, truthy,
        specSendIsNative, hde, hae]
  | some s =>
      by_cases hs : s = ""
      · subst hs
        simp [handleToolCall, sendArgs, getArg, List.lookup, truthy,
          specSendIsNative, hde, hae, h0]
      · have hse : s.isEmpty = false := by
          cases h : s.isEmpty
          · rfl
          · exact absurd ((String.isEmpty_iff s).mp h) hs
        by_cases hn : nativeNameMatch s = true <;>
          simp [handleToolCall, sendArgs, getArg, List.lookup, truthy,
            specSendIsNative, hde, hae, hse, hs, hn]

/-- Witness for the amended C10: a concrete shielded token name is
routed to the shielded-token endpoint with the renamed fields. -/
theorem send_token_routing_witness :
    handleToolCall "send" (sendArgs "addr-1" "5" (some "GOLD"))
      = (if specSendIsNative (some "GOLD") then
          .call (.post "/wallet/send"
            [("destinationAddress", .vstr "addr-1"), ("amount", .vstr "5")])
        else
          .call (.post "/wallet/tokens/send"
            [("tokenName", .vstr ((some "GOLD").getD "")),
             ("toAddress", .vstr "addr-1"), ("amount", .vstr "5")])) :=
  send_token_routing "addr-1" "5" (by decide) (by decide) (some "GOLD")

end MidnightMCP
